import Mathlib

/-!
Verification of the vortex-thunder mod pipeline.

This file gives a shallow embedding of the vortex-thunder repository
(`main.py` plus the `src/` helper modules) and proves properties of the
embedded functions.

Modelling conventions:
* Network and filesystem effects are oracles: per-mod "world" records state
  the outcome the environment would produce for each external call
  (HTTP status and body of a response, success of a file write, ...).
* Python dict `.get` with a default is modelled by `Option.getD`; a field
  read without a default is a total structure field.
* Python truthiness of a string (`if not s`) is `pyFalsyStr` (absent or
  empty string); of an integer-or-absent value it is `pyFalsyNat`.
* Side effects (HTTP calls, file writes, config saves, sleeps) are recorded
  in an `Event` trace so that claims about the absence of calls are
  statable.
* `sys.exit(1)` is exit code 1; a run of `main` that returns normally is
  exit code 0.
-/

namespace VortexThunder

/-- Python's `str.replace(' ', '_')`, modelled character-by-character
(equivalent for a single-character pattern). Used for
`mod_entry.get('name', ...).replace(' ', '_')` in `main.py`. -/
def replaceSpaces (s : String) : String :=
  ⟨s.data.map fun c => if c = ' ' then '_' else c⟩

/-- Python truthiness test for an optional string: `None` and `""` are falsy.
Models `if not version:` and `if not all([...])` on string fields. -/
def pyFalsyStr : Option String → Bool
  | none => true
  | some s => s = ""

/-- Python truthiness test for an optional integer: `None` and `0` are falsy. -/
def pyFalsyNat : Option Nat → Bool
  | none => true
  | some n => n = 0

/-- Python f-string rendering of a value that may be absent
(`f"...{mod_info.get('mod_id')}"` prints `None` for a missing key). -/
def pyOptNatStr : Option Nat → String
  | none => "None"
  | some n => toString n

/-- One element of the `files` array of the Nexus file-list endpoint, with
the fields `main.py`/`downloader.py` read: `file_id`, `file_name`,
`uploaded_timestamp` (the timestamp may be absent, hence `Option`). -/
structure FileInfo where
  file_id : Nat
  file_name : String
  uploaded_timestamp : Option Int
  deriving DecidableEq, Repr

/-- Value of a Python sort key in the two `max(files, key=...)` calls: either
an integer timestamp or a string (the `''` default in `downloader.py`). -/
inductive PyKey where
  | int : Int → PyKey
  | str : String → PyKey
  deriving DecidableEq, Repr

/-- Python `<` on two key values: comparable only when both are integers or
both strings; `none` models the `TypeError` raised on a mixed comparison. -/
def pyLt : PyKey → PyKey → Option Bool
  | .int a, .int b => some (decide (a < b))
  | .str a, .str b => some (decide (a < b))
  | .int _, .str _ => none
  | .str _, .int _ => none

/-- Loop of Python's `max(iterable, key=key)`: keep the current maximum,
replacing it only when a later element's key is strictly greater (so the
first maximal element wins); `none` models a `TypeError` during comparison. -/
def pyMaxGo {α : Type} (key : α → PyKey) (cur : α) : List α → Option α
  | [] => some cur
  | y :: ys =>
    match pyLt (key cur) (key y) with
    | none => none
    | some b => if b then pyMaxGo key y ys else pyMaxGo key cur ys

/-- Python's `max(iterable, key=key)`; `none` on the empty list (both call
sites guard the empty case before calling `max`) or on a `TypeError`. -/
def pyMax {α : Type} (key : α → PyKey) : List α → Option α
  | [] => none
  | x :: xs => pyMaxGo key x xs

/-- Sort key of `main.py:get_latest_file_info`:
`lambda x: x.get('uploaded_timestamp', 0)` (integer default). -/
def mainKey (f : FileInfo) : PyKey := .int (f.uploaded_timestamp.getD 0)

/-- Sort key of `Downloader.get_latest_file_info`:
`lambda x: x.get('uploaded_timestamp', '')` (string default). -/
def dlKey (f : FileInfo) : PyKey :=
  match f.uploaded_timestamp with
  | some n => .int n
  | none => .str ""

/-- Response of the Nexus file-list endpoint as the two fetchers see it:
HTTP status, optional integer `Retry-After` header, and the parsed `files`
array of the JSON body. -/
structure Resp where
  status : Nat
  retryAfter : Option Nat
  files : List FileInfo
  deriving DecidableEq, Repr

/-- Model of `main.py:get_latest_file_info` applied to the files-endpoint
response: 403 returns `None`; any other `>= 400` status makes
`raise_for_status` raise, caught by the blanket handler, returning `None`;
an empty `files` list returns `None`; otherwise the `max` by timestamp. -/
def mainGetLatestFileInfo (r : Resp) : Option FileInfo :=
  if r.status = 403 then none
  else if 400 ≤ r.status then none
  else
    match r.files with
    | [] => none
    | fs => pyMax mainKey fs

/-- Result of `Downloader.get_latest_file_info`: the returned value, the
sequence of `time.sleep` durations performed, and the number of HTTP
requests issued. -/
structure DlFetch where
  result : Option FileInfo
  sleeps : List Nat
  requests : Nat
  deriving DecidableEq, Repr

/-- Retry delay used on a 429: `int(response.headers.get('Retry-After', '60'))`. -/
def retryAfterVal (r : Resp) : Nat := r.retryAfter.getD 60

/-- Loop body of `Downloader.get_latest_file_info` (`for attempt in range(3)`),
with `g i` the response the server gives to the `i`-th request. 403 returns
`None`; 429 sleeps for the `Retry-After` value and retries; other `>= 400`
statuses raise and return `None`; an empty file list returns `None`;
otherwise the `max` by the downloader's key. Exhausting the three attempts
falls out of the loop and returns `None`. -/
def dlGo (g : Nat → Resp) : Nat → Nat → DlFetch
  | 0, idx => ⟨none, [], idx⟩
  | fuel + 1, idx =>
    let r := g idx
    if r.status = 403 then ⟨none, [], idx + 1⟩
    else if r.status = 429 then
      let rest := dlGo g fuel (idx + 1)
      ⟨rest.result, retryAfterVal r :: rest.sleeps, rest.requests⟩
    else if 400 ≤ r.status then ⟨none, [], idx + 1⟩
    else
      match r.files with
      | [] => ⟨none, [], idx + 1⟩
      | fs => ⟨pyMax dlKey fs, [], idx + 1⟩

/-- Model of `Downloader.get_latest_file_info`: at most three attempts. -/
def dlGetLatestFileInfo (g : Nat → Resp) : DlFetch := dlGo g 3 0

/-- One entry of the `mods` array of `mods.json`, with the fields `main.py`
reads: `mod_id` (read without a default, so total), `name`, `dependencies`,
`last_processed_version`, `categories` (the last four read with `.get`). -/
structure ModEntry where
  mod_id : Nat
  name : Option String
  dependencies : List String
  last_processed_version : Option String
  categories : Option (List String)
  deriving DecidableEq, Repr

/-- Fields of the Nexus mod-metadata response that `main.py` reads
(`name`, `version`, `summary`, `mod_id`, each via `.get`). -/
structure ModInfo where
  name : Option String
  version : Option String
  summary : Option String
  mod_id : Option Nat
  deriving DecidableEq, Repr

/-- Top-level fields of `mods.json` that `main.py` reads. -/
structure Config where
  nexus_game_domain : Option String
  thunderstore_game_domain : Option String
  game_id : Option Nat
  team_name : Option String
  mods : List ModEntry
  deriving DecidableEq, Repr

/-- Contents of the `manifest.json` written by `create_manifest`. -/
structure Manifest where
  name : String
  version_number : String
  website_url : String
  description : String
  dependencies : List String
  deriving DecidableEq, Repr

/-- Observable side effects of a run: HTTP calls, file writes (with their
success flag), archive operations, config saves, and uploads. -/
inductive Event where
  | getModInfo (modId : Nat)
  | getFiles (modId : Nat)
  | downloadFile (modId fileId : Nat) (ok : Bool)
  | extractArchive (filePath : String) (ok : Bool)
  | writeManifest (m : Manifest) (ok : Bool)
  | writeReadme (ok : Bool)
  | writeChangelog (ok : Bool)
  | writeIcon (ok : Bool)
  | zipPackage (zipPath : String) (ok : Bool)
  | saveConfig
  | upload (zipPath team categories : String) (ok : Bool)
  deriving DecidableEq, Repr

/-- Environment outcomes for one mod's download-phase processing:
the mod-metadata response (`none` for any failure of `get_mod_info`), the
files-endpoint response, and the success of the download and of each
filesystem step of `prepare_package`. -/
structure DlWorld where
  modInfo : Option ModInfo
  filesResp : Resp
  downloadOk : Bool
  extractOk : Bool
  manifestOk : Bool
  readmeOk : Bool
  changelogOk : Bool
  iconOk : Bool
  zipOk : Bool
  deriving Repr

/-- Manifest assembled by `prepare_package`/`create_manifest`: name and
version from the Nexus metadata (with the code's defaults), website URL
from the game domain and `mod_id`, description from `summary`, and the
dependencies taken directly from the config entry
(`dependencies = mod_entry.get('dependencies', [])`, `main.py` line 203). -/
def mkManifest (info : ModInfo) (e : ModEntry) (dom : String) : Manifest :=
  { name := replaceSpaces (info.name.getD "unknown_mod")
    version_number := info.version.getD "unknown_version"
    website_url := "https://www.nexusmods.com/" ++ dom ++ "/mods/" ++ pyOptNatStr info.mod_id
    description := info.summary.getD "No description provided."
    dependencies := e.dependencies }

/-- Result of `prepare_package`: the zip path on success, the manifest that
was written (present whenever extraction succeeded — `create_manifest`
catches its own exceptions), and the event trace. -/
structure PackageResult where
  packageZip : Option String
  manifest : Option Manifest
  events : List Event
  deriving Repr

/-- Model of `prepare_package`: extraction failure returns `None`;
otherwise the four file-writing steps run (each logs and swallows its own
failure — `create_manifest`, `create_readme`, `create_changelog`,
`create_icon` all catch their exceptions internally, so their success flags
do not influence control flow); finally the package is zipped, and only a
zip failure makes the function return `None`. -/
def preparePackage (info : ModInfo) (filePath : String) (e : ModEntry)
    (dom : String) (w : DlWorld) : PackageResult :=
  let mod_name := replaceSpaces (info.name.getD "unknown_mod")
  let version := info.version.getD "unknown_version"
  let package_path := "packages/" ++ mod_name ++ "_" ++ version
  if w.extractOk then
    let m := mkManifest info e dom
    let package_zip := package_path ++ ".zip"
    let evs := [Event.extractArchive filePath true,
                Event.writeManifest m w.manifestOk,
                Event.writeReadme w.readmeOk,
                Event.writeChangelog w.changelogOk,
                Event.writeIcon w.iconOk,
                Event.zipPackage package_zip w.zipOk]
    if w.zipOk then ⟨some package_zip, some m, evs⟩
    else ⟨none, some m, evs⟩
  else ⟨none, none, [Event.extractArchive filePath false]⟩

/-- Body of the `for mod_entry in mods` loop of `download_mods`: fetch the
metadata (failure skips the mod); skip when the remote version equals
`last_processed_version`; fetch the file list and pick the latest file
(failure or no files skips); download (failure skips); `prepare_package`
(failure skips); on success set `last_processed_version` to the remote
version and save the config. -/
def processMod (dom : String) (e : ModEntry) (w : DlWorld) : ModEntry × List Event :=
  match w.modInfo with
  | none => (e, [Event.getModInfo e.mod_id])
  | some info =>
    if info.version = e.last_processed_version then
      (e, [Event.getModInfo e.mod_id])
    else
      match mainGetLatestFileInfo w.filesResp with
      | none => (e, [Event.getModInfo e.mod_id, Event.getFiles e.mod_id])
      | some latest =>
        let ev0 := [Event.getModInfo e.mod_id, Event.getFiles e.mod_id,
                    Event.downloadFile e.mod_id latest.file_id w.downloadOk]
        if w.downloadOk then
          let file_path := "downloads/" ++ toString e.mod_id ++ "/" ++ latest.file_name
          let pr := preparePackage info file_path e dom w
          match pr.packageZip with
          | none => (e, ev0 ++ pr.events)
          | some _ =>
            ({e with last_processed_version := info.version},
             ev0 ++ pr.events ++ [Event.saveConfig])
        else (e, ev0)

/-- Sequential loop of `download_mods` over the mod list, with `ws i` the
environment outcomes for the `i`-th entry. -/
def downloadModsGo (dom : String) (ws : Nat → DlWorld) :
    Nat → List ModEntry → List ModEntry × List Event
  | _, [] => ([], [])
  | i, e :: rest =>
    let (e', ev) := processMod dom e (ws i)
    let (rest', evr) := downloadModsGo dom ws (i + 1) rest
    (e' :: rest', ev ++ evr)

/-- Model of `download_mods(config, session, nexus_game_domain, game_id)`:
processes the mods sequentially, returning the updated config and trace. -/
def downloadMods (cfg : Config) (dom : String) (ws : Nat → DlWorld) :
    Config × List Event :=
  let r := downloadModsGo dom ws 0 cfg.mods
  ({cfg with mods := r.1}, r.2)

/-- Filesystem/network outcomes for one mod's upload-phase processing:
whether `packages/{name}_{version}.zip` exists on disk, and whether the
upload POST succeeds. -/
structure UpWorld where
  packageExists : Bool
  uploadOk : Bool
  deriving Repr

/-- Body of the `for mod_entry in mods` loop of `upload_mods`: a mod with a
falsy (`None` or empty) `last_processed_version` is skipped; a missing
package file is skipped; otherwise the archive is POSTed with the team name
and the comma-joined categories, defaulting to `['Misc']`
(`mod_entry.get('categories', ['Misc'])`). Upload failures are logged and
swallowed; nothing is mutated. -/
def processUpload (team : String) (e : ModEntry) (w : UpWorld) : List Event :=
  match e.last_processed_version with
  | none => []
  | some v =>
    if v = "" then []
    else
      let mod_name := replaceSpaces (e.name.getD "unknown_mod")
      let package_zip := "packages/" ++ mod_name ++ "_" ++ v ++ ".zip"
      if w.packageExists then
        [Event.upload package_zip team
          (String.intercalate "," (e.categories.getD ["Misc"])) w.uploadOk]
      else []

/-- Sequential loop of `upload_mods` over the mod list. -/
def uploadModsGo (team : String) (ws : Nat → UpWorld) :
    Nat → List ModEntry → List Event
  | _, [] => []
  | i, e :: rest => processUpload team e (ws i) ++ uploadModsGo team ws (i + 1) rest

/-- Model of `upload_mods(config)` after its API-key check: uses
`config.get('team_name', 'community')` and iterates the mods. It reads
`last_processed_version` but never writes any entry and never saves the
config, so it returns only a trace. -/
def uploadMods (cfg : Config) (ws : Nat → UpWorld) : List Event :=
  uploadModsGo (cfg.team_name.getD "community") ws 0 cfg.mods

/-- Model of `main`'s processing phase: `download_mods(...)` followed by
`upload_mods(config)` on the (mutated) config object. -/
def runPipeline (cfg : Config) (dom : String) (dws : Nat → DlWorld)
    (uws : Nat → UpWorld) : Config × List Event :=
  let r := downloadMods cfg dom dws
  (r.1, r.2 ++ uploadMods r.1 uws)

/-- Model of `reset_versions(config)`: sets every entry's
`last_processed_version` to `None` and saves the config. -/
def resetVersions (cfg : Config) : Config × List Event :=
  ({cfg with mods := cfg.mods.map fun e => {e with last_processed_version := none}},
   [Event.saveConfig])

/-- Process environment of a run of `main`: the result of loading
`mods.json` (`none` when the file is missing or unparseable — both paths
call `sys.exit(1)` inside `load_config`), the `RESET_VERSIONS` flag, the
two API keys, whether `browser_cookie3` cookie collection succeeded, and
the `NEXUS_SESSION_SID` variable. -/
structure Env where
  configResult : Option Config
  resetFlag : Bool
  nexusKey : Option String
  thunderstoreKey : Option String
  cookieAuto : Bool
  sid : Option String
  deriving Repr

/-- Domain-configuration check of `main`:
`not all([nexus_game_domain, thunderstore_game_domain, game_id])`. -/
def domainsIncomplete (cfg : Config) : Bool :=
  pyFalsyStr cfg.nexus_game_domain || pyFalsyStr cfg.thunderstore_game_domain ||
    pyFalsyNat cfg.game_id

/-- Model of `main` as (exit code, trace), following the source order:
config load (exit 1 on failure), domain check (exit 1), `RESET_VERSIONS`
branch (reset then exit 0), `NEXUS_API_KEY` check (exit 1), cookie
collection with `sid` fallback (exit 1 when neither works), then
`download_mods`; `upload_mods` first checks `THUNDERSTORE_API_KEY`
(exit 1) and otherwise the run finishes with exit code 0 regardless of
per-mod outcomes (no other `sys.exit` is reachable: every per-mod failure
in `download_mods`/`upload_mods` is caught and logged). -/
def mainRun (env : Env) (dws : Nat → DlWorld) (uws : Nat → UpWorld) :
    Nat × List Event :=
  match env.configResult with
  | none => (1, [])
  | some cfg =>
    if domainsIncomplete cfg then (1, [])
    else if env.resetFlag then (0, (resetVersions cfg).2)
    else if pyFalsyStr env.nexusKey then (1, [])
    else if !env.cookieAuto && pyFalsyStr env.sid then (1, [])
    else
      let r := downloadMods cfg (cfg.nexus_game_domain.getD "") dws
      if pyFalsyStr env.thunderstoreKey then (1, r.2)
      else (0, r.2 ++ uploadMods r.1 uws)

/-- Success condition of the download phase for one mod, as the code
implements it: metadata fetched, remote version differs from the stored
one, a latest file was found, and the download, the extraction and the
final zip step succeeded. The four asset-writing flags (manifest, README,
changelog, icon) are deliberately absent: their failures are swallowed. -/
def dlSuccess (e : ModEntry) (w : DlWorld) : Bool :=
  match w.modInfo with
  | none => false
  | some info =>
    !(decide (info.version = e.last_processed_version)) &&
      (mainGetLatestFileInfo w.filesResp).isSome &&
      w.downloadOk && w.extractOk && w.zipOk

/-! ## Concrete instances used by counterexamples and witnesses -/

/-- Mod entry that declares the dependency name `"HelperMod"`. -/
def c1entry : ModEntry := ⟨7, some "MainMod", ["HelperMod"], none, none⟩

/-- Sibling config entry named `"HelperMod"` with a non-null
last-processed version, exactly the situation in which the spec expects a
resolved `author-name-version` identifier. -/
def c1sibling : ModEntry := ⟨8, some "HelperMod", [], some "1.2.0", none⟩

/-- Config holding the dependent entry and its sibling. -/
def c1cfg : Config := ⟨some "game", some "ts", some 1, some "team", [c1entry, c1sibling]⟩

/-- Nexus metadata for the dependent mod. -/
def c1info : ModInfo := ⟨some "MainMod", some "2.0", none, some 7⟩

/-- Fully successful download-phase world for the dependent mod. -/
def c1w0 : DlWorld :=
  ⟨some c1info, ⟨200, none, [⟨1, "m.zip", some 10⟩]⟩, true, true, true, true, true, true, true⟩

/-- Download-phase world whose metadata fetch fails (used for the sibling,
leaving it untouched). -/
def c1wfail : DlWorld :=
  ⟨none, ⟨200, none, []⟩, true, true, true, true, true, true, true⟩

/-- Per-mod worlds of the C1 counterexample run. -/
def c1worlds : Nat → DlWorld := fun i => if i = 0 then c1w0 else c1wfail

/-- Manifest the code actually writes for `c1entry`: the dependency name
appears verbatim, unresolved. -/
def c1manifest : Manifest :=
  ⟨"MainMod", "2.0", "https://www.nexusmods.com/game/mods/7",
   "No description provided.", ["HelperMod"]⟩

/-- Single-mod config for the upload-failure counterexample. -/
def c2cfg : Config := ⟨some "game", some "ts", some 1, some "team", [⟨7, some "Alpha", [], none, none⟩]⟩

/-- Fully successful download-phase world (remote version `"2.0"`). -/
def c2dw : DlWorld :=
  ⟨some ⟨some "Alpha", some "2.0", none, some 7⟩, ⟨200, none, [⟨1, "a.zip", some 10⟩]⟩,
   true, true, true, true, true, true, true⟩

/-- Upload-phase world in which the package exists but the upload fails. -/
def c2uw : UpWorld := ⟨true, false⟩

/-- Entry processed in the manifest-write-failure counterexample. -/
def c3we : ModEntry := ⟨7, some "Gamma", [], none, none⟩

/-- Single-mod config for the manifest-write-failure counterexample. -/
def c3cfg : Config := ⟨some "game", some "ts", some 1, some "team", [c3we]⟩

/-- World in which every step succeeds. -/
def c3w1 : DlWorld :=
  ⟨some ⟨some "Gamma", some "2.0", none, some 7⟩, ⟨200, none, [⟨1, "g.zip", some 10⟩]⟩,
   true, true, true, true, true, true, true⟩

/-- World identical to `c3w1` except that all four asset-writing steps
(manifest, README, changelog, icon) fail. -/
def c3w2 : DlWorld :=
  ⟨some ⟨some "Gamma", some "2.0", none, some 7⟩, ⟨200, none, [⟨1, "g.zip", some 10⟩]⟩,
   true, true, false, false, false, false, true⟩

/-- Manifest of the C3 counterexample mod. -/
def c3manifest : Manifest :=
  ⟨"Gamma", "2.0", "https://www.nexusmods.com/game/mods/7",
   "No description provided.", []⟩

/-- Up-to-date entry: its stored version equals the remote version. -/
def c4we : ModEntry := ⟨7, some "Beta", [], some "1.0", none⟩

/-- Single-mod config containing the up-to-date entry. -/
def c4cfg : Config := ⟨some "game", some "ts", some 1, some "team", [c4we]⟩

/-- World whose metadata reports the same version the entry stores. -/
def c4dw : DlWorld :=
  ⟨some ⟨some "Beta", some "1.0", none, some 7⟩, ⟨200, none, []⟩,
   true, true, true, true, true, true, true⟩

/-- Upload-phase world: the zip from a previous run is still on disk. -/
def c4uw : UpWorld := ⟨true, true⟩

/-- Server that answers every request with 429 and `Retry-After: 5`. -/
def c5g : Nat → Resp := fun _ => ⟨429, some 5, []⟩

/-- Files with timestamps 100, 300 and 200. -/
def c6f1 : FileInfo := ⟨1, "f1", some 100⟩

/-- File with the maximal timestamp 300. -/
def c6f2 : FileInfo := ⟨2, "f2", some 300⟩

/-- File with timestamp 200. -/
def c6f3 : FileInfo := ⟨3, "f3", some 200⟩

/-- Successful response carrying the timestamp-[100, 300, 200] file list. -/
def c6resp : Resp := ⟨200, none, [c6f1, c6f2, c6f3]⟩

/-- Entry with no `categories` key configured. -/
def c8e : ModEntry := ⟨9, some "My Mod", [], some "1.0", none⟩

/-- Upload-phase world with the package present. -/
def c8w : UpWorld := ⟨true, true⟩

/-- Successful response used to witness the selector-agreement theorem. -/
def c10resp : Resp := ⟨200, none, [⟨1, "a", some 100⟩, ⟨2, "b", some 300⟩, ⟨3, "c", some 200⟩]⟩

/-! ## Helper lemmas -/

theorem pyMaxGo_mainKey_spec (l : List FileInfo) :
    ∀ cur : FileInfo, ∃ f, pyMaxGo mainKey cur l = some f ∧ (f = cur ∨ f ∈ l) ∧
      cur.uploaded_timestamp.getD 0 ≤ f.uploaded_timestamp.getD 0 ∧
      ∀ g ∈ l, g.uploaded_timestamp.getD 0 ≤ f.uploaded_timestamp.getD 0 := by
  induction l with
  | nil =>
    intro cur
    exact ⟨cur, rfl, Or.inl rfl, le_refl _, by simp⟩
  | cons y ys ih =>
    intro cur
    by_cases h : cur.uploaded_timestamp.getD 0 < y.uploaded_timestamp.getD 0
    · obtain ⟨f, hf, hmem, hle, hall⟩ := ih y
      refine ⟨f, ?_, ?_, le_of_lt (lt_of_lt_of_le h hle), ?_⟩
      · simpa [pyMaxGo, pyLt, mainKey, h] using hf
      · rcases hmem with h1 | h1
        · exact Or.inr (by simp [h1])
        · exact Or.inr (by simp [h1])
      · intro g hg
        rcases List.mem_cons.mp hg with h1 | h1
        · exact h1 ▸ hle
        · exact hall g h1
    · obtain ⟨f, hf, hmem, hle, hall⟩ := ih cur
      refine ⟨f, ?_, ?_, hle, ?_⟩
      · simpa [pyMaxGo, pyLt, mainKey, h] using hf
      · rcases hmem with h1 | h1
        · exact Or.inl h1
        · exact Or.inr (by simp [h1])
      · intro g hg
        rcases List.mem_cons.mp hg with h1 | h1
        · exact h1 ▸ le_trans (le_of_not_lt h) hle
        · exact hall g h1

theorem pyMaxGo_congr {α : Type} (k1 k2 : α → PyKey) (l : List α) :
    ∀ cur : α, k1 cur = k2 cur → (∀ x ∈ l, k1 x = k2 x) →
      pyMaxGo k1 cur l = pyMaxGo k2 cur l := by
  induction l with
  | nil => intro cur _ _; rfl
  | cons y ys ih =>
    intro cur hcur hall
    have hy : k1 y = k2 y := hall y (by simp)
    have hys : ∀ x ∈ ys, k1 x = k2 x := fun x hx => hall x (by simp [hx])
    simp only [pyMaxGo, hcur, hy]
    cases pyLt (k2 cur) (k2 y) with
    | none => rfl
    | some b =>
      cases b with
      | true => simpa using ih y hy hys
      | false => simpa using ih cur hcur hys

theorem dlGo_requests_le (g : Nat → Resp) :
    ∀ (fuel idx : Nat), (dlGo g fuel idx).requests ≤ idx + fuel := by
  intro fuel
  induction fuel with
  | zero => intro idx; simp [dlGo]
  | succ n ih =>
    intro idx
    have h1 := ih (idx + 1)
    by_cases h403 : (g idx).status = 403
    · simp only [dlGo, if_pos h403]
      omega
    · by_cases h429 : (g idx).status = 429
      · simp only [dlGo, if_neg h403, if_pos h429]
        omega
      · by_cases h400 : 400 ≤ (g idx).status
        · simp only [dlGo, if_neg h403, if_neg h429, if_pos h400]
          omega
        · cases hf : (g idx).files with
          | nil =>
            simp only [dlGo, if_neg h403, if_neg h429, if_neg h400, hf]
            omega
          | cons a as =>
            simp only [dlGo, if_neg h403, if_neg h429, if_neg h400, hf]
            omega

theorem preparePackage_packageZip (info : ModInfo) (fp : String) (e : ModEntry)
    (dom : String) (w : DlWorld) :
    (preparePackage info fp e dom w).packageZip =
      if w.extractOk && w.zipOk then
        some ("packages/" ++ replaceSpaces (info.name.getD "unknown_mod") ++ "_" ++
          info.version.getD "unknown_version" ++ ".zip")
      else none := by
  cases hx : w.extractOk <;> cases hz : w.zipOk <;>
    simp [preparePackage, hx, hz]

theorem preparePackage_manifest (info : ModInfo) (fp : String) (e : ModEntry)
    (dom : String) (w : DlWorld) :
    (preparePackage info fp e dom w).manifest =
      if w.extractOk then some (mkManifest info e dom) else none := by
  cases hx : w.extractOk <;> cases hz : w.zipOk <;>
    simp [preparePackage, hx, hz]

theorem processMod_characterization (dom : String) (e : ModEntry) (w : DlWorld) :
    (processMod dom e w).1 =
      if dlSuccess e w then
        {e with last_processed_version := w.modInfo.bind ModInfo.version}
      else e := by
  cases hmi : w.modInfo with
  | none => simp [processMod, dlSuccess, hmi]
  | some info =>
    by_cases hv : info.version = e.last_processed_version
    · simp [processMod, dlSuccess, hmi, hv]
    · cases hl : mainGetLatestFileInfo w.filesResp with
      | none => simp [processMod, dlSuccess, hmi, hv, hl]
      | some latest =>
        cases hdl : w.downloadOk with
        | false => simp [processMod, dlSuccess, hmi, hv, hl, hdl]
        | true =>
          have hzl := preparePackage_packageZip info
            ("downloads/" ++ toString e.mod_id ++ "/" ++ latest.file_name) e dom w
          cases hx : w.extractOk <;> cases hz : w.zipOk <;>
            simp [processMod, dlSuccess, hmi, hv, hl, hdl, hx, hz, hzl]

theorem downloadModsGo_mods (dom : String) (ws : Nat → DlWorld) :
    ∀ (l : List ModEntry) (j i : Nat),
      (downloadModsGo dom ws j l).1[i]? = (l[i]?).map fun e => (processMod dom e (ws (j + i))).1 := by
  intro l
  induction l with
  | nil => intro j i; simp [downloadModsGo]
  | cons e rest ih =>
    intro j i
    cases i with
    | zero => simp [downloadModsGo]
    | succ n =>
      have := ih (j + 1) n
      simp only [downloadModsGo]
      simpa [Nat.add_assoc, Nat.add_comm 1 n] using this

/-! ## Claim theorems -/

/-- C1 (counterexample). The claim says a declared dependency whose sibling
entry is found and has a non-null last-processed version is emitted as
`{author}-{name}-{version}`. In the run below, mod `MainMod` declares the
dependency `"HelperMod"`, and the sibling entry named `"HelperMod"` exists
with last-processed version `"1.2.0"`; any identifier of the required form
would end with the version, i.e. have `"1.2.0"` as a suffix. The manifest
the code writes carries the dependency list `["HelperMod"]` verbatim: its
only element does not have `"1.2.0"` as a suffix, so no resolved
identifier is present (nor was the dependency dropped). -/
theorem C1_manifest_passthrough_cex :
    Event.writeManifest c1manifest true ∈ (downloadMods c1cfg "game" c1worlds).2 ∧
    c1manifest.dependencies = ["HelperMod"] ∧
    c1cfg.mods.map ModEntry.name = [some "MainMod", some "HelperMod"] ∧
    c1cfg.mods.map ModEntry.last_processed_version = [none, some "1.2.0"] ∧
    List.isSuffixOf "1.2.0".data "HelperMod".data = false := by
  decide

/-- C1 (amended). The dependencies list declared in the mod entry is copied
verbatim into the written manifest: `prepare_package` performs no sibling
lookup, no `{author}-{name}-{version}` formatting, and drops nothing — the
manifest's `dependencies` field is exactly `mod_entry.get('dependencies', [])`,
and the manifest is written whenever extraction succeeded. -/
theorem C1_dependencies_passed_verbatim (info : ModInfo) (fp : String)
    (e : ModEntry) (dom : String) (w : DlWorld) :
    (mkManifest info e dom).dependencies = e.dependencies ∧
    (preparePackage info fp e dom w).manifest =
      (if w.extractOk then some (mkManifest info e dom) else none) ∧
    (w.extractOk = true →
      Event.writeManifest (mkManifest info e dom) w.manifestOk ∈
        (preparePackage info fp e dom w).events) := by
  refine ⟨rfl, preparePackage_manifest info fp e dom w, ?_⟩
  intro hx
  cases hz : w.zipOk <;> simp [preparePackage, hx, hz]

/-- C1 (witness). The verbatim-manifest theorem applied to the concrete
counterexample run. -/
theorem C1_dependencies_passed_verbatim_witness :
    Event.writeManifest (mkManifest c1info c1entry "game") true ∈
      (preparePackage c1info "downloads/7/m.zip" c1entry "game" c1w0).events :=
  (C1_dependencies_passed_verbatim c1info "downloads/7/m.zip" c1entry "game" c1w0).2.2 rfl

/-- C2 (counterexample). A run in which download and packaging succeed but
the upload fails: the persisted last-processed version is nevertheless
updated to `"2.0"` and the config saved, refuting the claim that the
update happens only after a successful upload. -/
theorem C2_update_without_upload_cex :
    ((runPipeline c2cfg "game" (fun _ => c2dw) (fun _ => c2uw)).1.mods.map
        ModEntry.last_processed_version = [some "2.0"]) ∧
    Event.upload "packages/Alpha_2.0.zip" "team" "Misc" false ∈
      (runPipeline c2cfg "game" (fun _ => c2dw) (fun _ => c2uw)).2 ∧
    Event.saveConfig ∈ (runPipeline c2cfg "game" (fun _ => c2dw) (fun _ => c2uw)).2 := by
  decide

/-- C2 (amended). The persisted last-processed version is updated by
`download_mods` immediately after a successful download + packaging,
before any upload: the final config of the full pipeline is exactly the
config produced by the download phase, is independent of every upload
outcome (`upload_mods` never mutates an entry or saves the config), and
entry `i` is updated exactly when its download-phase steps succeeded. -/
theorem C2_update_independent_of_upload (cfg : Config) (dom : String)
    (dws : Nat → DlWorld) (uws uws' : Nat → UpWorld) (i : Nat) :
    (runPipeline cfg dom dws uws).1 = (runPipeline cfg dom dws uws').1 ∧
    (runPipeline cfg dom dws uws).1 = (downloadMods cfg dom dws).1 ∧
    (runPipeline cfg dom dws uws).1.mods[i]? = (cfg.mods[i]?).map (fun e =>
      if dlSuccess e (dws i) then
        {e with last_processed_version := (dws i).modInfo.bind ModInfo.version}
      else e) := by
  refine ⟨rfl, rfl, ?_⟩
  have h := downloadModsGo_mods dom dws cfg.mods 0 i
  show (downloadModsGo dom dws 0 cfg.mods).1[i]? = _
  rw [h]
  cases hc : cfg.mods[i]? with
  | none => rfl
  | some e => simp [processMod_characterization]

/-- C3 (counterexample). A run in which the manifest write fails (the
trace records `writeManifest _ false`) while download, extraction and
archiving succeed: the last-processed version is still updated to `"2.0"`,
refuting the claim that a failing manifest/asset write prevents the
update. -/
theorem C3_asset_failure_still_updates_cex :
    ((downloadMods c3cfg "game" (fun _ => c3w2)).1.mods.map
        ModEntry.last_processed_version = [some "2.0"]) ∧
    Event.writeManifest c3manifest false ∈ (downloadMods c3cfg "game" (fun _ => c3w2)).2 := by
  decide

/-- C3 (amended). The last-processed version is updated exactly when the
metadata fetch, the new-version check, the latest-file lookup, the
download, the extraction and the final archiving succeed; the four asset
writes (manifest, README, changelog, icon) each swallow their own failure,
so two worlds differing only in those four flags produce the same
persisted entry. -/
theorem C3_update_iff_download_extract_zip (dom : String) (e : ModEntry)
    (w w' : DlWorld) (hmi : w'.modInfo = w.modInfo) (hfr : w'.filesResp = w.filesResp)
    (hdl : w'.downloadOk = w.downloadOk) (hex : w'.extractOk = w.extractOk)
    (hz : w'.zipOk = w.zipOk) :
    ((processMod dom e w).1 =
      if dlSuccess e w then
        {e with last_processed_version := w.modInfo.bind ModInfo.version}
      else e) ∧
    (processMod dom e w').1 = (processMod dom e w).1 := by
  have hds : dlSuccess e w' = dlSuccess e w := by
    unfold dlSuccess
    rw [hmi, hfr, hdl, hex, hz]
  refine ⟨processMod_characterization dom e w, ?_⟩
  rw [processMod_characterization dom e w', processMod_characterization dom e w, hds, hmi]

/-- C3 (witness). The update condition evaluated on a fully successful
world and on a world whose four asset writes all fail: both update the
entry to version `"2.0"`. -/
theorem C3_update_iff_witness :
    ((processMod "game" c3we c3w1).1 = {c3we with last_processed_version := some "2.0"}) ∧
    (processMod "game" c3we c3w2).1 = (processMod "game" c3we c3w1).1 := by
  have h := C3_update_iff_download_extract_zip "game" c3we c3w1 c3w2 rfl rfl rfl rfl rfl
  exact ⟨h.1.trans (by decide), h.2⟩

/-- C4 (counterexample). A mod whose remote version equals its stored
last-processed version, with its package zip from a previous run still on
disk: the config is indeed left unchanged, but the upload phase still
makes an upload call for it, refuting the claim that no upload call
occurs. -/
theorem C4_uptodate_upload_cex :
    (runPipeline c4cfg "game" (fun _ => c4dw) (fun _ => c4uw)).1 = c4cfg ∧
    Event.upload "packages/Beta_1.0.zip" "team" "Misc" true ∈
      (runPipeline c4cfg "game" (fun _ => c4dw) (fun _ => c4uw)).2 := by
  decide

/-- C4 (amended). When the remote version equals the stored one, the
download phase performs no file-list fetch, no download and no packaging
for the mod and leaves the entry unchanged (the trace is the single
metadata fetch); but there is no upload suppression: `upload_mods` uploads
any entry with a non-null, non-empty last-processed version whose package
archive exists on disk. -/
theorem C4_uptodate_shortcircuit (dom : String) (e : ModEntry) (w : DlWorld)
    (info : ModInfo) (hmi : w.modInfo = some info)
    (hv : info.version = e.last_processed_version) :
    processMod dom e w = (e, [Event.getModInfo e.mod_id]) ∧
    (∀ (team : String) (uw : UpWorld) (v : String),
      e.last_processed_version = some v → v ≠ "" → uw.packageExists = true →
      processUpload team e uw =
        [Event.upload
          ("packages/" ++ replaceSpaces (e.name.getD "unknown_mod") ++ "_" ++ v ++ ".zip")
          team (String.intercalate "," (e.categories.getD ["Misc"])) uw.uploadOk]) := by
  constructor
  · simp [processMod, hmi, hv]
  · intro team uw v hv' hne hpkg
    simp [processUpload, hv', hne, hpkg]

/-- C4 (witness). The short-circuit theorem applied to a concrete
up-to-date entry whose package file still exists. -/
theorem C4_uptodate_shortcircuit_witness :
    processMod "game" c4we c4dw = (c4we, [Event.getModInfo 7]) ∧
    processUpload "team" c4we c4uw = [Event.upload "packages/Beta_1.0.zip" "team" "Misc" true] := by
  have h := C4_uptodate_shortcircuit "game" c4we c4dw
    ⟨some "Beta", some "1.0", none, some 7⟩ rfl rfl
  exact ⟨h.1, (h.2 "team" c4uw "1.0" rfl (by decide) rfl).trans (by decide)⟩

/-- C5 (confirmed). `Downloader.get_latest_file_info` issues at most three
requests; when an attempt receives a 429 it sleeps for exactly the
server-supplied `Retry-After` value (hence at least that many seconds)
before the next attempt; three consecutive 429 responses exhaust the
attempts and the function returns `None` — failure for this mod only —
recording the three server-supplied delays; and after a single 429 a
successful second response is fetched normally after the one sleep. -/
theorem C5_rate_limit_bounded_retry (g : Nat → Resp) :
    (dlGetLatestFileInfo g).requests ≤ 3 ∧
    ((g 0).status = 429 → (g 1).status = 429 → (g 2).status = 429 →
      (dlGetLatestFileInfo g).result = none ∧
      (dlGetLatestFileInfo g).sleeps =
        [retryAfterVal (g 0), retryAfterVal (g 1), retryAfterVal (g 2)]) ∧
    ((g 0).status = 429 → (g 1).status ≠ 403 → (g 1).status < 400 → (g 1).files ≠ [] →
      (dlGetLatestFileInfo g).sleeps = [retryAfterVal (g 0)] ∧
      (dlGetLatestFileInfo g).result = pyMax dlKey (g 1).files) := by
  refine ⟨dlGo_requests_le g 3 0, ?_, ?_⟩
  · intro h0 h1 h2
    constructor <;> simp [dlGetLatestFileInfo, dlGo, h0, h1, h2]
  · intro h0 hn403 hlt hne
    have hn429 : ¬ ((g 1).status = 429) := by omega
    have hn400 : ¬ (400 ≤ (g 1).status) := by omega
    obtain ⟨a, as, hfs⟩ := List.exists_cons_of_ne_nil hne
    constructor <;> simp [dlGetLatestFileInfo, dlGo, h0, hn403, hn429, hn400, hfs]

/-- C5 (witness). Against a server that always answers 429 with
`Retry-After: 5`, the fetch gives up with `None` after sleeping 5 seconds
before each of its bounded retries. -/
theorem C5_rate_limit_bounded_retry_witness :
    (dlGetLatestFileInfo c5g).result = none ∧ (dlGetLatestFileInfo c5g).sleeps = [5, 5, 5] := by
  have h := (C5_rate_limit_bounded_retry c5g).2.1 rfl rfl rfl
  exact ⟨h.1, h.2.trans (by decide)⟩

/-- C6 (confirmed). The latest-file selection of
`main.py:get_latest_file_info`: an empty file list yields `None` rather
than an error; on the list with timestamps [100, 300, 200] it picks the
timestamp-300 file; and in general every selected file is a member of the
list whose timestamp is maximal. -/
theorem C6_latest_file_selection :
    mainGetLatestFileInfo ⟨200, none, []⟩ = none ∧
    mainGetLatestFileInfo c6resp = some c6f2 ∧
    ∀ (r : Resp) (f : FileInfo), mainGetLatestFileInfo r = some f →
      f ∈ r.files ∧
        ∀ g ∈ r.files, g.uploaded_timestamp.getD 0 ≤ f.uploaded_timestamp.getD 0 := by
  refine ⟨rfl, by decide, ?_⟩
  intro r f hf
  unfold mainGetLatestFileInfo at hf
  by_cases h403 : r.status = 403
  · simp [h403] at hf
  · by_cases h400 : 400 ≤ r.status
    · simp [h403, h400] at hf
    · rw [if_neg h403, if_neg h400] at hf
      cases hfs : r.files with
      | nil => rw [hfs] at hf; simp at hf
      | cons x xs =>
        rw [hfs] at hf
        have hf' : pyMaxGo mainKey x xs = some f := hf
        obtain ⟨f', hgo, hmem, hle, hall⟩ := pyMaxGo_mainKey_spec xs x
        have hff : f' = f := Option.some.inj (hgo.symm.trans hf')
        subst hff
        constructor
        · rcases hmem with h1 | h1
          · simp [h1]
          · simp [h1]
        · intro g hg
          rcases List.mem_cons.mp hg with h1 | h1
          · exact h1 ▸ hle
          · exact hall g h1

/-- C6 (witness). The membership-and-maximality part of the selection
theorem at the concrete [100, 300, 200] response. -/
theorem C6_latest_file_selection_witness :
    c6f2 ∈ c6resp.files ∧
      ∀ g ∈ c6resp.files, g.uploaded_timestamp.getD 0 ≤ c6f2.uploaded_timestamp.getD 0 :=
  C6_latest_file_selection.2.2 c6resp c6f2 (by decide)

/-- C7 (confirmed). The run exits nonzero exactly when the config failed to
load or parse, the domain configuration is incomplete, or a credential the
run needs is missing — in a non-reset run: `NEXUS_API_KEY`, a session
cookie (automatic collection or `NEXUS_SESSION_SID`), or
`THUNDERSTORE_API_KEY`; and the exit code never depends on the per-mod
download/package/upload outcomes. -/
theorem C7_exit_code_characterization (env : Env) (dws dws' : Nat → DlWorld)
    (uws uws' : Nat → UpWorld) :
    ((mainRun env dws uws).1 ≠ 0 ↔
      env.configResult = none ∨
      ∃ cfg, env.configResult = some cfg ∧
        (domainsIncomplete cfg = true ∨
         (env.resetFlag = false ∧
           (pyFalsyStr env.nexusKey = true ∨
            (env.cookieAuto = false ∧ pyFalsyStr env.sid = true) ∨
            pyFalsyStr env.thunderstoreKey = true)))) ∧
    (mainRun env dws uws).1 = (mainRun env dws' uws').1 := by
  obtain ⟨cr, rf, nk, tk, ca, sid⟩ := env
  cases cr with
  | none => simp [mainRun]
  | some cfg =>
    cases hdc : domainsIncomplete cfg with
    | true => simp [mainRun, hdc]
    | false =>
      cases rf with
      | true => simp [mainRun, hdc]
      | false =>
        cases hnk : pyFalsyStr nk with
        | true => simp [mainRun, hdc, hnk]
        | false =>
          cases ca with
          | true =>
            cases htk : pyFalsyStr tk with
            | true => simp [mainRun, hdc, hnk, htk]
            | false => simp [mainRun, hdc, hnk, htk]
          | false =>
            cases hsid : pyFalsyStr sid with
            | true => simp [mainRun, hdc, hnk, hsid]
            | false =>
              cases htk : pyFalsyStr tk with
              | true => simp [mainRun, hdc, hnk, hsid, htk]
              | false => simp [mainRun, hdc, hnk, hsid, htk]

/-- C8 (confirmed). When the upload call is made for an entry (non-falsy
last-processed version, package present), its `categories` form value is
the comma-join of the configured category list, and when no categories are
configured it is the comma-join of the default single-element list
`['Misc']`. -/
theorem C8_upload_categories_default (team : String) (e : ModEntry) (w : UpWorld)
    (v : String) (hv : e.last_processed_version = some v) (hne : v ≠ "")
    (hpkg : w.packageExists = true) :
    (e.categories = none →
      processUpload team e w =
        [Event.upload
          ("packages/" ++ replaceSpaces (e.name.getD "unknown_mod") ++ "_" ++ v ++ ".zip")
          team (String.intercalate "," ["Misc"]) w.uploadOk]) ∧
    (∀ cs, e.categories = some cs →
      processUpload team e w =
        [Event.upload
          ("packages/" ++ replaceSpaces (e.name.getD "unknown_mod") ++ "_" ++ v ++ ".zip")
          team (String.intercalate "," cs) w.uploadOk]) := by
  constructor
  · intro hc
    simp [processUpload, hv, hne, hpkg, hc]
  · intro cs hc
    simp [processUpload, hv, hne, hpkg, hc]

/-- C8 (witness). An entry with no categories configured is uploaded with
the categories value `"Misc"`. -/
theorem C8_upload_categories_default_witness :
    processUpload "community" c8e c8w =
      [Event.upload "packages/My_Mod_1.0.zip" "community" "Misc" true] := by
  have h := (C8_upload_categories_default "community" c8e c8w "1.0" rfl (by decide) rfl).1 rfl
  exact h.trans (by decide)

/-- C9 (confirmed). `reset_versions` sets every entry's
`last_processed_version` to `None`, leaves every other entry field and
every other top-level config field unchanged, and saves the config. -/
theorem C9_reset_versions_frame (cfg : Config) :
    ((resetVersions cfg).1.nexus_game_domain = cfg.nexus_game_domain ∧
     (resetVersions cfg).1.thunderstore_game_domain = cfg.thunderstore_game_domain ∧
     (resetVersions cfg).1.game_id = cfg.game_id ∧
     (resetVersions cfg).1.team_name = cfg.team_name) ∧
    List.Forall₂ (fun e' e => e'.last_processed_version = none ∧ e'.mod_id = e.mod_id ∧
        e'.name = e.name ∧ e'.dependencies = e.dependencies ∧ e'.categories = e.categories)
      (resetVersions cfg).1.mods cfg.mods ∧
    (resetVersions cfg).2 = [Event.saveConfig] := by
  refine ⟨⟨rfl, rfl, rfl, rfl⟩, ?_, rfl⟩
  show List.Forall₂ _ (cfg.mods.map _) cfg.mods
  induction cfg.mods with
  | nil => simp
  | cons e rest ih => exact List.Forall₂.cons ⟨rfl, rfl, rfl, rfl, rfl⟩ ih

/-- C10 (confirmed). On every successful (non-403, status below 400)
response whose non-empty file list carries an `uploaded_timestamp` on each
entry, the module-level selector of `main.py` and the
`Downloader.get_latest_file_info` method choose the same file (the two
differ only in the default sort key used for entries missing a timestamp,
which the hypothesis rules out), and the choice is a value, not `None`. -/
theorem C10_selectors_agree (r : Resp) (h403 : r.status ≠ 403) (hlt : r.status < 400)
    (hne : r.files ≠ []) (hts : ∀ f ∈ r.files, f.uploaded_timestamp.isSome = true) :
    mainGetLatestFileInfo r = (dlGetLatestFileInfo (fun _ => r)).result ∧
    (mainGetLatestFileInfo r).isSome = true := by
  have h429 : ¬ (r.status = 429) := by omega
  have h400 : ¬ (400 ≤ r.status) := by omega
  obtain ⟨x, xs, hfs⟩ := List.exists_cons_of_ne_nil hne
  have hkeys : ∀ f ∈ r.files, mainKey f = dlKey f := by
    intro f hf
    have hs := hts f hf
    cases hsome : f.uploaded_timestamp with
    | none => rw [hsome] at hs; simp at hs
    | some n => simp [mainKey, dlKey, hsome]
  have hm : mainGetLatestFileInfo r = pyMax mainKey (x :: xs) := by
    unfold mainGetLatestFileInfo
    rw [if_neg h403, if_neg h400, hfs]
  have hd : (dlGetLatestFileInfo (fun _ => r)).result = pyMax dlKey (x :: xs) := by
    simp [dlGetLatestFileInfo, dlGo, h403, h429, h400, hfs]
  constructor
  · rw [hm, hd]
    show pyMaxGo mainKey x xs = pyMaxGo dlKey x xs
    exact pyMaxGo_congr mainKey dlKey xs x (hkeys x (by rw [hfs]; simp))
      (fun y hy => hkeys y (by rw [hfs]; simp [hy]))
  · rw [hm]
    obtain ⟨f, hgo, -, -, -⟩ := pyMaxGo_mainKey_spec xs x
    show (pyMaxGo mainKey x xs).isSome = true
    rw [hgo]
    rfl

/-- C10 (witness). Both selectors applied to a concrete successful
response with timestamps [100, 300, 200] on every entry. -/
theorem C10_selectors_agree_witness :
    mainGetLatestFileInfo c10resp = (dlGetLatestFileInfo (fun _ => c10resp)).result ∧
    (mainGetLatestFileInfo c10resp).isSome = true :=
  C10_selectors_agree c10resp (by decide) (by decide) (by decide) (by decide)

end VortexThunder
